import Mathlib

/-!
Shallow embedding of the JWT auth/refresh core of the repository:
`src/server/controllers/user.js` (login, logout, refresh-token controller),
the User model methods (`generateAccessAndRefereshTokens`,
`checkAndUpdateExpiredStatus`, `generateAccessToken`, `generateRefreshToken`,
`isPasswordCorrect`), `src/server/models/UsedRefreshToken.js`, and the
distributed single-flight refresh TTL computation of
`src/client/src/lib/auth.js`.

Tokens are modelled structurally: a JWT is determined by its signed payload
(`_id`, `iat`, `exp`) plus whether its signature verifies under the refresh
secret (`sigOk`); deterministic HMAC signing means structurally equal payloads
serialize to equal strings, so string comparison of JWTs in the source is
modelled by structural equality here. bcrypt is modelled as an injective
tagging of the plaintext. Time is an abstract integer clock (seconds).
-/

namespace AuthCore

/-- A subscription plan document (`src/server/models/Plan.js`): only the fields
the auth core reads (`_id`, `slug`). -/
structure Plan where
  id : Nat
  slug : String
deriving DecidableEq

/-- The `planId` field of an in-memory user document. Mongoose keeps either
`null`, a raw ObjectId, or — after `.populate('planId')` — the referenced plan
document. `typeof` of both an ObjectId and a document is `'object'`, but only
the populated document exposes `.slug`. -/
inductive PlanRef
  | noPlan
  | unpopulated (pid : Nat)
  | populated (p : Plan)
deriving DecidableEq

/-- A refresh token: signed payload `{_id}` plus the `iat`/`exp` claims added by
`jwt.sign`, and whether its signature verifies under `REFRESH_TOKEN_SECRET`. -/
structure RefreshTok where
  uid : Nat
  iat : Int
  exp : Int
  sigOk : Bool
deriving DecidableEq

/-- An access token: signed payload `{_id, role, plan}` plus expiry, as minted by
`userSchema.methods.generateAccessToken`. -/
structure AccessTok where
  uid : Nat
  role : String
  plan : String
  exp : Int
deriving DecidableEq

/-- A user document (`userSchema` in the User model): the fields the auth core
reads or writes. `email` is stored lowercased (schema setter `lowercase: true`
runs at save). `refreshToken` is the nullable current-pointer. -/
structure UserDoc where
  id : Nat
  username : String
  email : String
  passwordHash : String
  refreshToken : Option RefreshTok
  planRef : PlanRef
  subscriptionStatus : String
  subscriptionStartDate : Option Int
  subscriptionEndDate : Option Int
  trialEndsAt : Option Int
  role : String
deriving DecidableEq

/-- A used-refresh-token ledger entry (`usedRefreshTokenSchema`): the rotated
token, its owner, the access token issued by the rotation that consumed it, and
the creation time (Mongo's TTL monitor deletes the document `10s` later; the
controller's lookup itself never inspects `createdAt`). -/
structure UsedEntry where
  token : RefreshTok
  userId : Nat
  accessToken : AccessTok
  createdAt : Int
deriving DecidableEq

/-- The persistent server-side state: the `users` and `plans` collections and the
used-refresh-token ledger. -/
structure ServerState where
  users : List UserDoc
  plans : List Plan
  ledger : List UsedEntry
deriving DecidableEq

/-- `ACCESS_TOKEN_EXPIRY` default `'15m'`, in seconds. -/
def ACCESS_TOKEN_EXPIRY_S : Int := 15 * 60

/-- `REFRESH_TOKEN_EXPIRY` default `'7d'`, in seconds. -/
def REFRESH_TOKEN_EXPIRY_S : Int := 7 * 24 * 60 * 60

/-- Result of `jwt.verify`: decoded payload, `TokenExpiredError`, or
`JsonWebTokenError` (bad signature / malformed). -/
inductive VerifyResult
  | ok (uid : Nat)
  | expired
  | malformed
deriving DecidableEq

/-- `jwt.verify(incomingRefreshToken, REFRESH_TOKEN_SECRET)`: the signature is
checked first (`JsonWebTokenError` on failure), then the `exp` claim
(`TokenExpiredError` once the clock reaches `exp`). -/
def jwtVerifyRefresh (t : RefreshTok) (now : Int) : VerifyResult :=
  if !t.sigOk then .malformed
  else if t.exp ≤ now then .expired
  else .ok t.uid

/-- `Plan.findOne({ slug })`. -/
def findPlanBySlug (plans : List Plan) (s : String) : Option Plan :=
  plans.find? (fun p => p.slug == s)

/-- Plan lookup by `_id`, as performed by `.populate('planId')`. -/
def findPlanById (plans : List Plan) (pid : Nat) : Option Plan :=
  plans.find? (fun p => p.id == pid)

/-- `.populate('planId')`: a raw ObjectId is replaced by the referenced plan
document, or by `null` when the referenced document does not exist; an already
populated (or null) field is left alone. -/
def populatePlanRef (plans : List Plan) : PlanRef → PlanRef
  | .unpopulated pid =>
      match findPlanById plans pid with
      | some p => .populated p
      | none => .noPlan
  | r => r

/-- The `planSlug` computation of `generateAccessToken`:
`let planSlug = "free"; if (this.planId && typeof this.planId === 'object' &&
this.planId.slug) planSlug = this.planId.slug; else if (this.planId &&
this.subscriptionStatus === 'free') planSlug = 'free';`
An unpopulated ObjectId is an object without a truthy `.slug`, so it falls into
the `else if`, which (like the default) yields `"free"`. -/
def planSlugOf (pr : PlanRef) (status : String) : String :=
  match pr with
  | .populated p => if p.slug ≠ "" then p.slug else "free"
  | .unpopulated _ => if status = "free" then "free" else "free"
  | .noPlan => "free"

/-- `userSchema.methods.generateAccessToken`: signs `{_id, role, plan}` with
`expiresIn: ACCESS_TOKEN_EXPIRY`. -/
def generateAccessToken (u : UserDoc) (now : Int) : AccessTok :=
  { uid := u.id, role := u.role, plan := planSlugOf u.planRef u.subscriptionStatus,
    exp := now + ACCESS_TOKEN_EXPIRY_S }

/-- `userSchema.methods.generateRefreshToken`: signs `{_id}` with
`expiresIn: REFRESH_TOKEN_EXPIRY`. -/
def generateRefreshToken (u : UserDoc) (now : Int) : RefreshTok :=
  { uid := u.id, iat := now, exp := now + REFRESH_TOKEN_EXPIRY_S, sigOk := true }

/-- JS `someDate && someDate <= now` where `someDate` is a nullable Date: a Date
object is truthy, `null` is falsy. -/
def dateSetAndPast (d : Option Int) (now : Int) : Bool :=
  match d with
  | some v => decide (v ≤ now)
  | none => false

/-- The guard of `checkAndUpdateExpiredStatus`:
`(status === 'active' && subscriptionEndDate && subscriptionEndDate <= now) ||
(status === 'trialing' && trialEndsAt && trialEndsAt <= now)`. -/
def subscriptionExpired (u : UserDoc) (now : Int) : Bool :=
  (u.subscriptionStatus == "active" && dateSetAndPast u.subscriptionEndDate now)
    || (u.subscriptionStatus == "trialing" && dateSetAndPast u.trialEndsAt now)

/-- `userSchema.methods.checkAndUpdateExpiredStatus`: when the subscription has
lapsed, downgrade in place — to the free plan (status `'free'`, fresh start
date, cleared end/trial dates, `planId` assigned the free plan's raw `_id`)
when one exists, otherwise to status `'canceled'`. Returns the updated instance
and the `updated` flag. -/
def checkAndUpdateExpiredStatus (u : UserDoc) (plans : List Plan) (now : Int) :
    UserDoc × Bool :=
  if subscriptionExpired u now then
    match findPlanBySlug plans "free" with
    | some freePlan =>
        ({ u with planRef := .unpopulated freePlan.id,
                  subscriptionStatus := "free",
                  subscriptionStartDate := some now,
                  subscriptionEndDate := none,
                  trialEndsAt := none }, true)
    | none => ({ u with subscriptionStatus := "canceled" }, true)
  else (u, false)

/-- `updateOne`-style list update: rewrite the first element satisfying `p`
(Mongo's `updateOne` touches at most one document). -/
def updateOneWhere (p : UserDoc → Bool) (f : UserDoc → UserDoc) :
    List UserDoc → List UserDoc
  | [] => []
  | u :: rest => if p u then f u :: rest else u :: updateOneWhere p f rest

/-- Storing a document depopulates `planId` back to the raw ObjectId. -/
def depopulate : PlanRef → PlanRef
  | .populated p => .unpopulated p.id
  | r => r

/-- `await this.save()` on a loaded user document: an unconditional write-back
of the document keyed by `_id` (Mongoose issues `updateOne({_id}, {$set: ...})`
with no version guard on scalar paths — last write wins). -/
def saveUser (st : ServerState) (u : UserDoc) : ServerState :=
  { st with users := (updateOneWhere (fun v => v.id == u.id)
      (fun _ => { u with planRef := depopulate u.planRef }) st.users) }

/-- `User.findById(uid)`. -/
def findUserById (st : ServerState) (uid : Nat) : Option UserDoc :=
  st.users.find? (fun v => v.id == uid)

/-- `User.findById(uid).select('+refreshToken').populate('planId')`. -/
def loadUserPopulated (st : ServerState) (uid : Nat) : Option UserDoc :=
  (findUserById st uid).map (fun u => { u with planRef := populatePlanRef st.plans u.planRef })

/-- The refresh-token pointer currently stored for principal `uid` (`none` when
the user is absent or the pointer is unset). -/
def storedPointer (st : ServerState) (uid : Nat) : Option RefreshTok :=
  (findUserById st uid).bind (fun u => u.refreshToken)

/-- Return value of `generateAccessAndRefereshTokens` together with the user
document as saved and the post-save store state. -/
structure TokenGenResult where
  accessToken : AccessTok
  refreshToken : RefreshTok
  savedUser : UserDoc
  state : ServerState
deriving DecidableEq

/-- `userSchema.methods.generateAccessAndRefereshTokens`: populate `planId` if
it is a raw ObjectId (safeguard), run `checkAndUpdateExpiredStatus` on the
instance, mint the access and refresh tokens from the (possibly downgraded)
instance, assign `this.refreshToken = refreshToken`, and `save()` — one write
persisting the downgrade and the new pointer together. -/
def generateAccessAndRefereshTokens (st : ServerState) (u : UserDoc) (now : Int) :
    TokenGenResult :=
  let u0 := { u with planRef := populatePlanRef st.plans u.planRef }
  let u1 := (checkAndUpdateExpiredStatus u0 st.plans now).1
  let accessToken := generateAccessToken u1 now
  let refreshToken := generateRefreshToken u1 now
  let u2 := { u1 with refreshToken := some refreshToken }
  { accessToken := accessToken, refreshToken := refreshToken,
    savedUser := u2, state := saveUser st u2 }

/-- Terminal outcomes of the `refreshAccessToken` controller. -/
inductive RefreshOutcome
  | noToken
  | expiredTok
  | malformedTok
  | userNotFound
  | ok (accessToken : AccessTok) (refreshToken : Option RefreshTok)
  | okGrace (accessToken : AccessTok) (refreshToken : Option RefreshTok)
  | invalidTok
deriving DecidableEq

/-- HTTP status returned for each outcome of `refreshAccessToken`. -/
def refreshStatus : RefreshOutcome → Nat
  | .noToken => 401
  | .expiredTok => 403
  | .malformedTok => 403
  | .userNotFound => 403
  | .ok _ _ => 200
  | .okGrace _ _ => 200
  | .invalidTok => 403

/-- Response message for each outcome of `refreshAccessToken`. -/
def refreshMessage : RefreshOutcome → String
  | .noToken => "Unauthorized: No refresh token provided."
  | .expiredTok => "Forbidden: Refresh token expired."
  | .malformedTok => "Forbidden: Malformed refresh token."
  | .userNotFound => "Forbidden: User not found."
  | .ok _ _ => "Access token refreshed."
  | .okGrace _ _ => "Access token refreshed (grace period)."
  | .invalidTok => "Forbidden: Invalid refresh token."

/-- `UsedRefreshToken.findOne({ token })`. -/
def ledgerLookup (ledger : List UsedEntry) (t : RefreshTok) : Option UsedEntry :=
  ledger.find? (fun e => e.token == t)

/-- The `refreshAccessToken` controller (`src/server/controllers/user.js`):
verify the JWT, load the user, then — happy path when the presented token
equals the stored pointer (rotate and record the consumed token in the ledger),
grace path when it is in the used-token ledger (replay the recorded access
token with the stored current pointer, no writes), otherwise reject. -/
def refreshAccessToken (st : ServerState) (incoming : Option RefreshTok) (now : Int) :
    RefreshOutcome × ServerState :=
  match incoming with
  | none => (.noToken, st)
  | some t =>
    match jwtVerifyRefresh t now with
    | .expired => (.expiredTok, st)
    | .malformed => (.malformedTok, st)
    | .ok uid =>
      match loadUserPopulated st uid with
      | none => (.userNotFound, st)
      | some user =>
        if user.refreshToken = some t then
          let r := generateAccessAndRefereshTokens st user now
          let st2 := { r.state with
            ledger := r.state.ledger ++
              [{ token := t, userId := user.id, accessToken := r.accessToken,
                 createdAt := now }] }
          (.ok r.accessToken (some r.refreshToken), st2)
        else
          match ledgerLookup st.ledger t with
          | some entry => (.okGrace entry.accessToken user.refreshToken, st)
          | none => (.invalidTok, st)

/-- A concurrent rotation committing its write: set principal `uid`'s stored
refresh-token pointer. -/
def setPointer (st : ServerState) (uid : Nat) (tok : Option RefreshTok) : ServerState :=
  { st with users := (updateOneWhere (fun v => v.id == uid)
      (fun v => { v with refreshToken := tok }) st.users) }

/-- The happy path of `refreshAccessToken` with its interleaving point made
explicit: the controller reads the user (capturing the stored pointer and
comparing it to the presented token), a concurrent state change `interfere`
commits at the await boundary between that read and the `this.save()` inside
`generateAccessAndRefereshTokens`, and the save then writes into the changed
state. Returns `none` when the happy-path guard does not hold at read time. -/
def refreshHappyRaced (st : ServerState) (t : RefreshTok)
    (interfere : ServerState → ServerState) (now : Int) :
    Option (RefreshOutcome × ServerState) :=
  match jwtVerifyRefresh t now with
  | .ok uid =>
    match loadUserPopulated st uid with
    | some user =>
      if user.refreshToken = some t then
        let r := generateAccessAndRefereshTokens (interfere st) user now
        let st2 := { r.state with
          ledger := r.state.ledger ++
            [{ token := t, userId := user.id, accessToken := r.accessToken,
               createdAt := now }] }
        some (.ok r.accessToken (some r.refreshToken), st2)
      else none
    | none => none
  | _ => none

/-- bcrypt modelled as an injective tagging of the plaintext; `bcrypt.compare`
holds exactly when the stored hash is the hash of the attempt. -/
def bcryptHash (pw : String) : String := "bcrypt$" ++ pw

/-- `userSchema.methods.isPasswordCorrect`: false when the attempt or the
stored hash is missing/empty (falsy), else `bcrypt.compare`. -/
def isPasswordCorrect (u : UserDoc) (attempt : String) : Bool :=
  if attempt == "" || u.passwordHash == "" then false
  else u.passwordHash == bcryptHash attempt

/-- `String.prototype.toLowerCase()` as invoked by the schema's
`lowercase: true` setter: lowercase every character. -/
def jsToLower (s : String) : String := ⟨s.data.map Char.toLower⟩

/-- `User.findOne({ $or: [{ username: identifier }, { email: identifier }] })`
from `loginUser`. The schema's `email` path declares the `lowercase: true`
setter; Mongoose runs schema setters both at save and on query filter values,
so the email branch compares the lowercased identifier against the (stored
lowercased) email, while the username branch matches exactly. -/
def findByIdentifier (users : List UserDoc) (identifier : String) : Option UserDoc :=
  users.find? (fun u => u.username == identifier || u.email == jsToLower identifier)

/-- Terminal outcomes of the `loginUser` controller. -/
inductive LoginOutcome
  | badRequest
  | invalidCredentialsNotFound
  | invalidCredentialsWrongPassword
  | okLogin (accessToken : AccessTok) (refreshToken : RefreshTok)
deriving DecidableEq

/-- HTTP status returned for each outcome of `loginUser`. -/
def loginStatus : LoginOutcome → Nat
  | .badRequest => 400
  | .invalidCredentialsNotFound => 404
  | .invalidCredentialsWrongPassword => 401
  | .okLogin _ _ => 200

/-- Response message for each outcome of `loginUser`. -/
def loginMessage : LoginOutcome → String
  | .badRequest => "Please provide username/email and password."
  | .invalidCredentialsNotFound => "Invalid credentials."
  | .invalidCredentialsWrongPassword => "Invalid credentials."
  | .okLogin _ _ => "Login successful."

/-- The `loginUser` controller: find the user by identifier (404 on miss),
verify the password (401 on mismatch), then mint and persist tokens via
`generateAccessAndRefereshTokens`. -/
def loginUser (st : ServerState) (identifier password : String) (now : Int) :
    LoginOutcome × ServerState :=
  if identifier == "" || password == "" then (.badRequest, st)
  else
    match findByIdentifier st.users identifier with
    | none => (.invalidCredentialsNotFound, st)
    | some found =>
      let user := { found with planRef := populatePlanRef st.plans found.planRef }
      if !isPasswordCorrect user password then (.invalidCredentialsWrongPassword, st)
      else
        let r := generateAccessAndRefereshTokens st user now
        (.okLogin r.accessToken r.refreshToken, r.state)

/-- Outcome of the `logoutUser` controller (the non-error path always answers
200 `'User logged out successfully.'`). -/
inductive LogoutOutcome
  | okLogout
deriving DecidableEq

/-- HTTP status returned by `logoutUser`. -/
def logoutStatus : LogoutOutcome → Nat
  | .okLogout => 200

/-- The `logoutUser` controller: `updateOne({_id: userId}, {$unset:
{refreshToken: ""}})` when authenticated, else the fallback `updateOne(
{refreshToken: incomingRefreshToken}, {$unset: ...})`, else a no-op; all three
answer 200. -/
def logoutUser (st : ServerState) (userId : Option Nat)
    (incoming : Option RefreshTok) : LogoutOutcome × ServerState :=
  match userId with
  | some uid =>
      (.okLogout, { st with users := (updateOneWhere (fun v => v.id == uid)
        (fun v => { v with refreshToken := none }) st.users) })
  | none =>
    match incoming with
    | some t =>
        (.okLogout, { st with users := (updateOneWhere (fun v => v.refreshToken == some t)
          (fun v => { v with refreshToken := none }) st.users) })
    | none => (.okLogout, st)

end AuthCore

namespace AuthClient

/-- `EARLY_REFRESH_WINDOW_MS` in `src/client/src/lib/auth.js`. -/
def EARLY_REFRESH_WINDOW_MS : Int := 30000

/-- `RESULT_TTL_CAP_MS` in `src/client/src/lib/auth.js`. -/
def RESULT_TTL_CAP_MS : Int := 20000

/-- `const msUntilEarly = Math.max(0, expiresMs - Date.now() -
EARLY_REFRESH_WINDOW_MS);` from `distributedSingleFlightRefresh`. -/
def msUntilEarly (expiresMs now : Int) : Int :=
  max 0 (expiresMs - now - EARLY_REFRESH_WINDOW_MS)

/-- `const resultTtlMs = Math.max(2_000, Math.min(RESULT_TTL_CAP_MS,
msUntilEarly || RESULT_TTL_CAP_MS));` — JS `||` treats `0` as falsy, so a zero
`msUntilEarly` falls back to the cap. -/
def resultTtlMs (expiresMs now : Int) : Int :=
  let m := msUntilEarly expiresMs now
  max 2000 (min RESULT_TTL_CAP_MS (if m = 0 then RESULT_TTL_CAP_MS else m))

end AuthClient

namespace AuthCore

/-- Fixture: a refresh token for principal 1 minted at clock 0. -/
def exTokA : RefreshTok :=
  { uid := 1, iat := 0, exp := REFRESH_TOKEN_EXPIRY_S, sigOk := true }

/-- Fixture: a later refresh token for principal 1 (a concurrent rotation's). -/
def exTokB : RefreshTok :=
  { uid := 1, iat := 1, exp := 1 + REFRESH_TOKEN_EXPIRY_S, sigOk := true }

/-- Fixture: a well-signed refresh token whose `exp` has passed by clock 100. -/
def exExpiredTok : RefreshTok := { uid := 1, iat := -20, exp := 10, sigOk := true }

/-- Fixture: principal 1, current pointer `exTokA`. -/
def exUser : UserDoc :=
  { id := 1, username := "alice", email := "alice@example.com",
    passwordHash := bcryptHash "correct-horse",
    refreshToken := some exTokA, planRef := .noPlan,
    subscriptionStatus := "pending", subscriptionStartDate := none,
    subscriptionEndDate := none, trialEndsAt := none, role := "user" }

/-- Fixture: store with just `exUser`. -/
def exState : ServerState := { users := [exUser], plans := [], ledger := [] }

/-- Fixture: access token recorded in the ledger for `exTokA`. -/
def exAccess : AccessTok :=
  { uid := 1, role := "user", plan := "free", exp := ACCESS_TOKEN_EXPIRY_S }

/-- Fixture: ledger entry left by the rotation that consumed `exTokA`. -/
def exEntry : UsedEntry :=
  { token := exTokA, userId := 1, accessToken := exAccess, createdAt := 0 }

/-- Fixture: principal 1 after the rotation that installed `exTokB`. -/
def exUserRotated : UserDoc := { exUser with refreshToken := some exTokB }

/-- Fixture: store just after a rotation, inside the grace window for `exTokA`. -/
def exStateGrace : ServerState :=
  { users := [exUserRotated], plans := [], ledger := [exEntry] }

/-- Fixture: principal 1 whose stored pointer is the expired token itself. -/
def exUserExpiredPtr : UserDoc := { exUser with refreshToken := some exExpiredTok }

/-- Fixture: store where the stored pointer equals the expired token. -/
def exStateExpiredPtr : ServerState :=
  { users := [exUserExpiredPtr], plans := [], ledger := [] }

/-- Fixture: the free plan. -/
def exFreePlan : Plan := { id := 7, slug := "free" }

/-- Fixture: a paid plan. -/
def exProPlan : Plan := { id := 8, slug := "pro" }

/-- Fixture: principal 1 on the paid plan with an `active` subscription that
ended at clock 50. -/
def exUserLapsed : UserDoc :=
  { exUser with
    planRef := .unpopulated 8, subscriptionStatus := "active",
    subscriptionEndDate := some 50 }

/-- Fixture: store holding `exUserLapsed` plus both plans. -/
def exStatePlans : ServerState :=
  { users := [exUserLapsed], plans := [exFreePlan, exProPlan], ledger := [] }

example : refreshAccessToken exStateGrace (some exTokA) 100
    = (.okGrace exAccess (some exTokB), exStateGrace) := by decide

example : refreshAccessToken exState (some exExpiredTok) 100 = (.expiredTok, exState) := by
  decide

example : loginUser exState "ghost" "pw" 0 = (.invalidCredentialsNotFound, exState) := by
  decide

example : (loginUser exState "alice" "wrong" 0).1 = .invalidCredentialsWrongPassword := by
  decide

example : (loginUser exState "ALICE@EXAMPLE.COM" "correct-horse" 0).1
    = .okLogin (generateAccessToken exUser 0) (generateRefreshToken exUser 0) := by decide

example :
    (refreshHappyRaced exState exTokA (fun s => setPointer s 1 (some exTokB)) 100).map
      (fun r => storedPointer r.2 1) = some (some (generateRefreshToken exUser 100)) := by
  decide

example : (loginUser exStatePlans "alice" "correct-horse" 100).2.users.head?.map
    (fun u => (u.subscriptionStatus, u.planRef, u.subscriptionEndDate))
    = some ("free", .unpopulated 7, none) := by decide

end AuthCore

example : AuthClient.resultTtlMs 30500 0 = 2000 := by decide
example : AuthClient.resultTtlMs 100000 0 = 20000 := by decide
example : AuthClient.resultTtlMs 0 0 = 20000 := by decide

namespace AuthCore

theorem find?_eq_some_of_unique {α : Type} (p : α → Bool) (l : List α) (a : α)
    (hmem : a ∈ l) (ha : p a = true) (huniq : ∀ b ∈ l, p b = true → b = a) :
    l.find? p = some a := by
  induction l with
  | nil => cases hmem
  | cons x xs ih =>
    by_cases hx : p x = true
    · have hxa : x = a := huniq x (List.mem_cons_self x xs) hx
      subst hxa
      simp [List.find?_cons_of_pos _ hx]
    · have hmem' : a ∈ xs := by
        cases hmem with
        | head => exact absurd ha hx
        | tail _ h => exact h
      rw [List.find?_cons_of_neg _ (by simpa using hx)]
      exact ih hmem' (fun b hb hpb => huniq b (List.mem_cons_of_mem _ hb) hpb)

theorem find?_updateOneWhere (p : UserDoc → Bool) (f : UserDoc → UserDoc)
    (l : List UserDoc) (hpf : ∀ v, p v = true → p (f v) = true) :
    (updateOneWhere p f l).find? p = (l.find? p).map f := by
  induction l with
  | nil => rfl
  | cons x xs ih =>
    by_cases hx : p x = true
    · simp [updateOneWhere, hx, List.find?_cons_of_pos _ hx,
        List.find?_cons_of_pos _ (hpf x hx)]
    · simp only [updateOneWhere, hx, if_false, Bool.false_eq_true]
      rw [List.find?_cons_of_neg _ (by simpa using hx),
        List.find?_cons_of_neg _ (by simpa using hx)]
      exact ih

theorem updateOneWhere_idem (p : UserDoc → Bool) (f : UserDoc → UserDoc)
    (l : List UserDoc) (hpf : ∀ v, p (f v) = p v) (hff : ∀ v, f (f v) = f v) :
    updateOneWhere p f (updateOneWhere p f l) = updateOneWhere p f l := by
  induction l with
  | nil => rfl
  | cons x xs ih =>
    by_cases hx : p x = true
    · simp [updateOneWhere, hx, hpf, hff]
    · simp [updateOneWhere, hx, ih]

theorem checkAndUpdate_id (u : UserDoc) (plans : List Plan) (now : Int) :
    (checkAndUpdateExpiredStatus u plans now).1.id = u.id := by
  unfold checkAndUpdateExpiredStatus
  split
  · split <;> rfl
  · rfl

theorem tokenGen_refresh (st : ServerState) (u : UserDoc) (now : Int) :
    (generateAccessAndRefereshTokens st u now).refreshToken = generateRefreshToken u now := by
  unfold generateAccessAndRefereshTokens generateRefreshToken
  simp [checkAndUpdate_id]

theorem tokenGen_savedUser_id (st : ServerState) (u : UserDoc) (now : Int) :
    (generateAccessAndRefereshTokens st u now).savedUser.id = u.id := by
  unfold generateAccessAndRefereshTokens
  simp [checkAndUpdate_id]

theorem tokenGen_savedUser_refresh (st : ServerState) (u : UserDoc) (now : Int) :
    (generateAccessAndRefereshTokens st u now).savedUser.refreshToken
      = some (generateAccessAndRefereshTokens st u now).refreshToken := rfl

theorem tokenGen_state (st : ServerState) (u : UserDoc) (now : Int) :
    (generateAccessAndRefereshTokens st u now).state
      = saveUser st (generateAccessAndRefereshTokens st u now).savedUser := rfl

end AuthCore

namespace AuthCore

/-- C1 counterexample: the claimed compare-and-swap semantics fails on the code.
At a concrete input a concurrent rotation commits `exTokB` between the
controller's read (which saw `exTokA` as current) and its save; the stored
pointer at write time is `exTokB ≠ exTokA`, yet the rotation still completes
and installs its freshly minted token as the current pointer, silently
overwriting the concurrent rotation — no CAS failure, no retry. -/
theorem refresh_rotation_cas_counterexample :
    storedPointer (setPointer exState 1 (some exTokB)) 1 = some exTokB ∧
    some exTokB ≠ some exTokA ∧
    (refreshHappyRaced exState exTokA (fun s => setPointer s 1 (some exTokB)) 100).map
        (fun r => storedPointer r.2 1)
      = some (some (generateRefreshToken exUser 100)) ∧
    generateRefreshToken exUser 100 ≠ exTokB := by decide

/-- C1 amended: the happy path compares the presented token `t` to the stored
pointer only at read time and then installs the freshly minted refresh token
with an unconditional write: whatever pointer a concurrent rotation stores at
the await boundary between the read and the save, the final stored pointer is
the new token (last write wins) — there is no compare-and-swap and no retry. -/
theorem refresh_rotation_last_write_wins (st : ServerState) (t : RefreshTok)
    (now : Int) (tok : Option RefreshTok) (user : UserDoc)
    (hsig : t.sigOk = true) (hexp : now < t.exp)
    (hload : loadUserPopulated st t.uid = some user)
    (hguard : user.refreshToken = some t) :
    (refreshHappyRaced st t (fun s => setPointer s t.uid tok) now).map
        (fun r => storedPointer r.2 t.uid)
      = some (some (generateRefreshToken user now)) := by
  obtain ⟨u0, hfind, hpop⟩ := Option.map_eq_some'.mp hload
  have hid0 : u0.id = t.uid := by
    have := List.find?_some hfind
    simpa using this
  have huid : user.id = t.uid := by
    rw [← hpop]; simpa using hid0
  have hverify : jwtVerifyRefresh t now = .ok t.uid := by
    unfold jwtVerifyRefresh
    rw [hsig]
    simp [not_le.mpr hexp]
  unfold refreshHappyRaced
  rw [hverify]
  simp only [hload]
  rw [if_pos hguard]
  simp only [Option.map_some']
  congr 1
  set stW := setPointer st t.uid tok with hstW
  set r := generateAccessAndRefereshTokens stW user now with hr
  have hsid : r.savedUser.id = t.uid := by
    rw [hr, tokenGen_savedUser_id, huid]
  have hstate : r.state = saveUser stW r.savedUser := tokenGen_state _ _ _
  show storedPointer _ t.uid = some (generateRefreshToken user now)
  unfold storedPointer findUserById
  simp only [hstate]
  unfold saveUser
  rw [hstW]
  unfold setPointer
  simp only
  simp only [hsid]
  rw [find?_updateOneWhere (fun v => v.id == t.uid) _ _ (fun v _ => by simp)]
  rw [find?_updateOneWhere (fun v => v.id == t.uid) _ _
    (fun v hv => by simpa using hv)]
  rw [show st.users.find? (fun v => v.id == t.uid) = some u0 from hfind]
  simp only [Option.map_some', Option.some_bind]
  show r.savedUser.refreshToken = some (generateRefreshToken user now)
  rw [hr, tokenGen_savedUser_refresh, tokenGen_refresh]

/-- C1 witness: the amended theorem applied at the concrete race of the
counterexample fixture. -/
theorem refresh_rotation_last_write_wins_witness :
    exTokA.sigOk = true ∧ (100:Int) < exTokA.exp ∧
    loadUserPopulated exState 1 = some exUser ∧ exUser.refreshToken = some exTokA ∧
    (refreshHappyRaced exState exTokA (fun s => setPointer s 1 (some exTokB)) 100).map
        (fun r => storedPointer r.2 1) = some (some (generateRefreshToken exUser 100)) :=
  ⟨by decide, by decide, by decide, by decide,
    refresh_rotation_last_write_wins exState exTokA 100 (some exTokB) exUser
      (by decide) (by decide) (by decide) (by decide)⟩

end AuthCore

namespace AuthCore

/-- C2: when the presented token differs from the stored pointer but is found in
the used-token ledger, the refresh succeeds with exactly the access token
recorded in the ledger entry together with the stored current refresh token,
and a repeated (concurrent) call presenting the same token gets the same
response — all callers converge on the same current refresh token. -/
theorem grace_path_replays_ledger_pair (st : ServerState) (t : RefreshTok)
    (now : Int) (user : UserDoc) (entry : UsedEntry)
    (hsig : t.sigOk = true) (hexp : now < t.exp)
    (hload : loadUserPopulated st t.uid = some user)
    (hne : user.refreshToken ≠ some t)
    (hledger : ledgerLookup st.ledger t = some entry) :
    refreshAccessToken st (some t) now
        = (.okGrace entry.accessToken user.refreshToken, st) ∧
    refreshAccessToken (refreshAccessToken st (some t) now).2 (some t) now
        = (.okGrace entry.accessToken user.refreshToken, st) := by
  have hverify : jwtVerifyRefresh t now = .ok t.uid := by
    unfold jwtVerifyRefresh
    rw [hsig]
    simp [not_le.mpr hexp]
  have h1 : refreshAccessToken st (some t) now
      = (.okGrace entry.accessToken user.refreshToken, st) := by
    simp only [refreshAccessToken]
    rw [hverify]
    simp only [hload]
    rw [if_neg hne, hledger]
  refine ⟨h1, ?_⟩
  rw [h1]
  exact h1

/-- C2 witness: the grace theorem at a concrete just-rotated store. -/
theorem grace_path_replays_ledger_pair_witness :
    exTokA.sigOk = true ∧ (100:Int) < exTokA.exp ∧
    loadUserPopulated exStateGrace 1 = some exUserRotated ∧
    exUserRotated.refreshToken ≠ some exTokA ∧
    ledgerLookup exStateGrace.ledger exTokA = some exEntry ∧
    refreshAccessToken exStateGrace (some exTokA) 100
      = (.okGrace exAccess (some exTokB), exStateGrace) :=
  ⟨by decide, by decide, by decide, by decide, by decide,
    (grace_path_replays_ledger_pair exStateGrace exTokA 100 exUserRotated exEntry
      (by decide) (by decide) (by decide) (by decide) (by decide)).1⟩

/-- C3 counterexample: a well-signed refresh token past its expiry — even one
still equal to the stored current pointer — is rejected with HTTP 403, not the
claimed 401. -/
theorem expired_refresh_status_counterexample :
    refreshAccessToken exStateExpiredPtr (some exExpiredTok) 100
      = (.expiredTok, exStateExpiredPtr) ∧
    refreshStatus (refreshAccessToken exStateExpiredPtr (some exExpiredTok) 100).1 = 403 ∧
    refreshStatus (refreshAccessToken exStateExpiredPtr (some exExpiredTok) 100).1 ≠ 401 := by
  decide

/-- C3 amended: both terminal rejections of the refresh endpoint answer
HTTP 403 — expired tokens via the expired outcome, invalid/replayed tokens via
the invalid outcome — and the two are distinguished only by the response
message, not by the status code. -/
theorem refresh_reject_statuses_conflated (st stI : ServerState) (t tI : RefreshTok)
    (now nowI : Int) (user : UserDoc)
    (hsig : t.sigOk = true) (hexp : t.exp ≤ now)
    (hsigI : tI.sigOk = true) (hexpI : nowI < tI.exp)
    (hloadI : loadUserPopulated stI tI.uid = some user)
    (hneI : user.refreshToken ≠ some tI)
    (hledgerI : ledgerLookup stI.ledger tI = none) :
    (refreshAccessToken st (some t) now).1 = .expiredTok ∧
    (refreshAccessToken stI (some tI) nowI).1 = .invalidTok ∧
    refreshStatus .expiredTok = 403 ∧ refreshStatus .invalidTok = 403 ∧
    refreshMessage .expiredTok ≠ refreshMessage .invalidTok := by
  have hverifyI : jwtVerifyRefresh tI nowI = .ok tI.uid := by
    unfold jwtVerifyRefresh
    rw [hsigI]
    simp [not_le.mpr hexpI]
  refine ⟨?_, ?_, rfl, rfl, by decide⟩
  · simp only [refreshAccessToken]
    unfold jwtVerifyRefresh
    rw [hsig]
    simp [hexp]
  · simp only [refreshAccessToken]
    rw [hverifyI]
    simp only [hloadI]
    rw [if_neg hneI, hledgerI]

/-- C3 witness: the amended theorem at concrete expired and invalid tokens. -/
theorem refresh_reject_statuses_conflated_witness :
    exExpiredTok.sigOk = true ∧ exExpiredTok.exp ≤ (100:Int) ∧
    exTokB.sigOk = true ∧ (100:Int) < exTokB.exp ∧
    loadUserPopulated exState 1 = some exUser ∧
    exUser.refreshToken ≠ some exTokB ∧
    ledgerLookup exState.ledger exTokB = none ∧
    ((refreshAccessToken exState (some exExpiredTok) 100).1 = .expiredTok ∧
     (refreshAccessToken exState (some exTokB) 100).1 = .invalidTok ∧
     refreshStatus .expiredTok = 403 ∧ refreshStatus .invalidTok = 403 ∧
     refreshMessage .expiredTok ≠ refreshMessage .invalidTok) :=
  ⟨by decide, by decide, by decide, by decide, by decide, by decide, by decide,
    refresh_reject_statuses_conflated exState exState exExpiredTok exTokB 100 100 exUser
      (by decide) (by decide) (by decide) (by decide) (by decide) (by decide) (by decide)⟩

/-- C4: a refresh token past its own signed expiry is rejected with the expired
outcome before the stored pointer is consulted — for every store, including one
whose stored pointer equals the presented token — and the state is returned
unchanged: no rotation, no token issuance, no ledger write. -/
theorem expired_refresh_precedence (st : ServerState) (t : RefreshTok) (now : Int)
    (hsig : t.sigOk = true) (hexp : t.exp ≤ now) :
    refreshAccessToken st (some t) now = (.expiredTok, st) := by
  simp only [refreshAccessToken]
  unfold jwtVerifyRefresh
  rw [hsig]
  simp [hexp]

/-- C4 witness: the precedence theorem at a store whose current pointer is the
expired token itself. -/
theorem expired_refresh_precedence_witness :
    exExpiredTok.sigOk = true ∧ exExpiredTok.exp ≤ (100:Int) ∧
    storedPointer exStateExpiredPtr 1 = some exExpiredTok ∧
    refreshAccessToken exStateExpiredPtr (some exExpiredTok) 100
      = (.expiredTok, exStateExpiredPtr) :=
  ⟨by decide, by decide, by decide,
    expired_refresh_precedence exStateExpiredPtr exExpiredTok 100 (by decide) (by decide)⟩

/-- C9: the grace-period path is read-only — the store (users, plans, ledger)
is returned unchanged, so the stored pointer is untouched, nothing is minted or
persisted, no ledger entry is created or removed, and a repeated presentation
of the same superseded token returns the identical response. -/
theorem grace_path_read_only (st : ServerState) (t : RefreshTok)
    (now : Int) (user : UserDoc) (entry : UsedEntry)
    (hsig : t.sigOk = true) (hexp : now < t.exp)
    (hload : loadUserPopulated st t.uid = some user)
    (hne : user.refreshToken ≠ some t)
    (hledger : ledgerLookup st.ledger t = some entry) :
    (refreshAccessToken st (some t) now).2 = st ∧
    refreshAccessToken (refreshAccessToken st (some t) now).2 (some t) now
        = refreshAccessToken st (some t) now := by
  have hverify : jwtVerifyRefresh t now = .ok t.uid := by
    unfold jwtVerifyRefresh
    rw [hsig]
    simp [not_le.mpr hexp]
  have h1 : refreshAccessToken st (some t) now
      = (.okGrace entry.accessToken user.refreshToken, st) := by
    simp only [refreshAccessToken]
    rw [hverify]
    simp only [hload]
    rw [if_neg hne, hledger]
  constructor
  · rw [h1]
  · rw [h1]
    exact h1

/-- C9 witness: the read-only theorem at the concrete just-rotated store. -/
theorem grace_path_read_only_witness :
    exTokA.sigOk = true ∧ (100:Int) < exTokA.exp ∧
    loadUserPopulated exStateGrace 1 = some exUserRotated ∧
    exUserRotated.refreshToken ≠ some exTokA ∧
    ledgerLookup exStateGrace.ledger exTokA = some exEntry ∧
    (refreshAccessToken exStateGrace (some exTokA) 100).2 = exStateGrace :=
  ⟨by decide, by decide, by decide, by decide, by decide,
    (grace_path_read_only exStateGrace exTokA 100 exUserRotated exEntry
      (by decide) (by decide) (by decide) (by decide) (by decide)).1⟩

end AuthCore

namespace AuthCore

/-- C5 (code-bug evidence): at a concrete store, login with an identifier that
matches no principal answers HTTP 404 while login with a known identifier and a
wrong password answers HTTP 401 — both with the same body message — so the
status code reveals which field was wrong, contradicting the claimed uniform,
indistinguishable 401. -/
theorem login_unknown_identifier_status_404 :
    loginUser exState "ghost" "pw" 0 = (.invalidCredentialsNotFound, exState) ∧
    loginStatus (loginUser exState "ghost" "pw" 0).1 = 404 ∧
    (loginUser exState "alice" "wrong" 0).1 = .invalidCredentialsWrongPassword ∧
    loginStatus (loginUser exState "alice" "wrong" 0).1 = 401 ∧
    loginMessage (loginUser exState "ghost" "pw" 0).1
      = loginMessage (loginUser exState "alice" "wrong" 0).1 ∧
    loginStatus (loginUser exState "ghost" "pw" 0).1
      ≠ loginStatus (loginUser exState "alice" "wrong" 0).1 := by decide

/-- C6: loginUser's principal lookup matches on either alternate key and is
case-insensitive on the email key: a stored principal is found both by exact
username and by any identifier that lowercases to its stored (lowercased)
email, provided no other stored principal matches either key. -/
theorem findByIdentifier_matches_email_case_insensitive
    (users : List UserDoc) (identifier : String) (u : UserDoc)
    (hmem : u ∈ users)
    (hmatch : jsToLower identifier = u.email ∨ u.username = identifier)
    (huniq : ∀ v ∈ users,
      (v.username == identifier || v.email == jsToLower identifier) = true → v = u) :
    findByIdentifier users identifier = some u := by
  apply find?_eq_some_of_unique _ _ _ hmem _ huniq
  rcases hmatch with h | h
  · simp [h]
  · simp [h]

/-- C6 witness: the lookup theorem at an identifier differing from the stored
email only in letter case. -/
theorem findByIdentifier_email_case_witness :
    exUser ∈ exState.users ∧
    jsToLower "ALICE@EXAMPLE.COM" = exUser.email ∧
    findByIdentifier exState.users "ALICE@EXAMPLE.COM" = some exUser :=
  ⟨by decide, by decide,
    findByIdentifier_matches_email_case_insensitive exState.users "ALICE@EXAMPLE.COM" exUser
      (by decide) (Or.inl (by decide)) (by decide)⟩

/-- C8: logout is idempotent — the first call answers 200 and unsets the
stored pointer, and a second call returns the identical 200 outcome and the
identical end state, in which no current refresh-token pointer is stored for
the principal. -/
theorem logout_idempotent (st : ServerState) (uid : Nat) :
    (logoutUser st (some uid) none).1 = .okLogout ∧
    logoutStatus (logoutUser st (some uid) none).1 = 200 ∧
    logoutUser (logoutUser st (some uid) none).2 (some uid) none
      = logoutUser st (some uid) none ∧
    storedPointer (logoutUser st (some uid) none).2 uid = none := by
  have hidem := updateOneWhere_idem (fun v => v.id == uid)
    (fun v => { v with refreshToken := none }) st.users
    (fun v => rfl) (fun v => rfl)
  refine ⟨rfl, rfl, ?_, ?_⟩
  · simp only [logoutUser]
    rw [hidem]
  · unfold storedPointer findUserById
    simp only [logoutUser]
    rw [find?_updateOneWhere (fun v => v.id == uid) _ _ (fun v hv => by simpa using hv)]
    cases h : st.users.find? (fun v => v.id == uid) <;> simp

end AuthCore

/-- C7 counterexample: with an access token expiring 30.5 s from now, the time
remaining until the next legitimate refresh point is 500 ms, yet the cached
refresh result is written with a 2000 ms TTL — the TTL exceeds the remaining
time, contradicting the claimed upper bound. -/
theorem resultTtl_exceeds_refresh_point_counterexample :
    AuthClient.msUntilEarly 30500 0 = 500 ∧
    AuthClient.resultTtlMs 30500 0 = 2000 ∧
    ¬ AuthClient.resultTtlMs 30500 0 ≤ AuthClient.msUntilEarly 30500 0 := by decide

/-- C7 amended: the cached-result TTL never exceeds the configured cap
`RESULT_TTL_CAP_MS` and never drops below a 2-second floor; it is bounded above
by the time remaining until the next legitimate refresh point (expiry minus the
early-refresh window) whenever that time is at least the floor — but when that
time is below the floor, or zero (falsy in JS, replaced by the cap), the TTL
may exceed it. -/
theorem resultTtl_bounds (expiresMs now : Int) :
    AuthClient.resultTtlMs expiresMs now ≤ AuthClient.RESULT_TTL_CAP_MS ∧
    2000 ≤ AuthClient.resultTtlMs expiresMs now ∧
    (2000 ≤ AuthClient.msUntilEarly expiresMs now →
      AuthClient.resultTtlMs expiresMs now ≤ AuthClient.msUntilEarly expiresMs now) := by
  unfold AuthClient.resultTtlMs AuthClient.msUntilEarly AuthClient.RESULT_TTL_CAP_MS
    AuthClient.EARLY_REFRESH_WINDOW_MS
  simp only [max_def, min_def]
  split_ifs <;> omega

/-- C7 witness: the bounds at a token expiring 100 s from now. -/
theorem resultTtl_bounds_witness :
    AuthClient.resultTtlMs 100000 0 ≤ AuthClient.RESULT_TTL_CAP_MS ∧
    (2000:Int) ≤ AuthClient.msUntilEarly 100000 0 ∧
    AuthClient.resultTtlMs 100000 0 ≤ AuthClient.msUntilEarly 100000 0 :=
  ⟨(resultTtl_bounds 100000 0).1, by decide, (resultTtl_bounds 100000 0).2.2 (by decide)⟩

namespace AuthCore

theorem checkAndUpdate_free (u : UserDoc) (plans : List Plan) (now : Int) (fp : Plan)
    (hlapsed : subscriptionExpired u now = true)
    (hfp : findPlanBySlug plans "free" = some fp) :
    (checkAndUpdateExpiredStatus u plans now).1
      = { u with
          planRef := .unpopulated fp.id, subscriptionStatus := "free",
          subscriptionStartDate := some now, subscriptionEndDate := none,
          trialEndsAt := none } := by
  unfold checkAndUpdateExpiredStatus
  rw [if_pos hlapsed, hfp]

theorem checkAndUpdate_canceled (u : UserDoc) (plans : List Plan) (now : Int)
    (hlapsed : subscriptionExpired u now = true)
    (hnone : findPlanBySlug plans "free" = none) :
    (checkAndUpdateExpiredStatus u plans now).1
      = { u with subscriptionStatus := "canceled" } := by
  unfold checkAndUpdateExpiredStatus
  rw [if_pos hlapsed, hnone]

theorem tokenGen_savedUser (st : ServerState) (u : UserDoc) (now : Int) :
    (generateAccessAndRefereshTokens st u now).savedUser
      = { (checkAndUpdateExpiredStatus
            { u with planRef := populatePlanRef st.plans u.planRef } st.plans now).1
          with refreshToken := some (generateAccessAndRefereshTokens st u now).refreshToken } := rfl

/-- C10: token issuance checks the subscription before minting: when the
principal's subscription has lapsed (`active` past its end date or `trialing`
past its trial end), the user is downgraded — to the free plan with status
`'free'`, start date reset to now and cleared end/trial dates when a free plan
exists, otherwise to status `'canceled'` — and the downgrade is persisted by
the same single save that stores the new refresh token, while the plan claim
embedded in the issued access token is computed from the post-downgrade
state. -/
theorem token_issuance_downgrades_expired_subscription (st : ServerState)
    (u : UserDoc) (now : Int)
    (hlapsed : subscriptionExpired u now = true) :
    (∀ fp, findPlanBySlug st.plans "free" = some fp →
      ((generateAccessAndRefereshTokens st u now).savedUser.subscriptionStatus = "free" ∧
       (generateAccessAndRefereshTokens st u now).savedUser.planRef = .unpopulated fp.id ∧
       (generateAccessAndRefereshTokens st u now).savedUser.subscriptionEndDate = none ∧
       (generateAccessAndRefereshTokens st u now).savedUser.trialEndsAt = none ∧
       (generateAccessAndRefereshTokens st u now).savedUser.subscriptionStartDate = some now)) ∧
    (findPlanBySlug st.plans "free" = none →
      (generateAccessAndRefereshTokens st u now).savedUser.subscriptionStatus = "canceled") ∧
    (generateAccessAndRefereshTokens st u now).savedUser.refreshToken
      = some (generateAccessAndRefereshTokens st u now).refreshToken ∧
    (generateAccessAndRefereshTokens st u now).state
      = saveUser st (generateAccessAndRefereshTokens st u now).savedUser ∧
    (generateAccessAndRefereshTokens st u now).accessToken.plan
      = planSlugOf (generateAccessAndRefereshTokens st u now).savedUser.planRef
          (generateAccessAndRefereshTokens st u now).savedUser.subscriptionStatus := by
  have h0 : subscriptionExpired
      { u with planRef := populatePlanRef st.plans u.planRef } now = true := hlapsed
  refine ⟨?_, ?_, rfl, rfl, rfl⟩
  · intro fp hfp
    have hc := checkAndUpdate_free
      { u with planRef := populatePlanRef st.plans u.planRef } st.plans now fp h0 hfp
    rw [tokenGen_savedUser, hc]
    exact ⟨rfl, rfl, rfl, rfl, rfl⟩
  · intro hnone
    have hc := checkAndUpdate_canceled
      { u with planRef := populatePlanRef st.plans u.planRef } st.plans now h0 hnone
    rw [tokenGen_savedUser, hc]

/-- C10 witness: the downgrade theorem at a principal whose `active`
subscription ended at clock 50, refreshed at clock 100, with a free plan
present. -/
theorem token_issuance_downgrades_witness :
    subscriptionExpired exUserLapsed 100 = true ∧
    findPlanBySlug exStatePlans.plans "free" = some exFreePlan ∧
    ((generateAccessAndRefereshTokens exStatePlans exUserLapsed 100).savedUser.subscriptionStatus = "free" ∧
     (generateAccessAndRefereshTokens exStatePlans exUserLapsed 100).savedUser.planRef = .unpopulated exFreePlan.id ∧
     (generateAccessAndRefereshTokens exStatePlans exUserLapsed 100).savedUser.subscriptionEndDate = none ∧
     (generateAccessAndRefereshTokens exStatePlans exUserLapsed 100).savedUser.trialEndsAt = none ∧
     (generateAccessAndRefereshTokens exStatePlans exUserLapsed 100).savedUser.subscriptionStartDate = some 100) :=
  ⟨by decide, by decide,
    (token_issuance_downgrades_expired_subscription exStatePlans exUserLapsed 100
      (by decide)).1 exFreePlan (by decide)⟩

end AuthCore
